import Mathlib

/-!
# Verification of the ServiceMaster ticket-CRUD slice

Shallow embedding of the FastAPI ticket service
(`src/docs/.../fastapi-service-master`): the pydantic schemas
(`src/tickets/schemas.py`), the SQLModel entity (`src/tickets/models.py`),
the repository and service layers (`src/tickets/repository.py`,
`src/tickets/service.py`), the router's query-parameter validation
(`src/tickets/router.py`) and the cached settings accessor
(`src/config.py`).

Modelling conventions:
* The relational store is a `StoreState`: the table rows in insertion
  order plus the auto-increment counter for the primary key.  `SELECT`
  without `ORDER BY` over a single table is modelled as insertion order.
* JSON bodies are modelled pre-validation (`RawTicketCreate`,
  `TicketUpdate` with two-level `Option`s: the outer layer is
  absent-vs-present, the inner layer is JSON `null`-vs-value), because
  pydantic v2 distinguishes an absent field from an explicit `null`
  (`model_dump(exclude_unset := true)` keeps an explicit `null`), and
  numeric/length constraints on `Optional[...]` fields are skipped when
  the value is `None`.
* Machine integers are `Int`/`Nat`; request priorities are `Int`.
* Python `str.upper` is modelled by `String.toUpper` (ASCII case
  mapping; all title keywords involved are ASCII).
* An `is_completed`, `title` or `description` explicitly set to `null`
  by an update passes pydantic validation but violates the NOT NULL
  column constraint at commit time; the store rejects the transaction
  and the error propagates as an unclassified server error.  This is
  modelled by `setsNullColumn` guarding `update_ticket`.
-/

/-- The stored `Ticket` row (`src/tickets/models.py`).  `id` is the
primary key assigned by the store; `title`, `description` and
`is_completed` are NOT NULL columns; `priority` is a nullable integer
column (`Optional[int]`, default 1). -/
structure Ticket where
  id : Nat
  title : String
  descr : String
  is_completed : Bool
  priority : Option Int
  deriving Repr, DecidableEq

/-- A validated create payload (`TicketCreate` in
`src/tickets/schemas.py` after pydantic validation): `title` and
`description` are required strings, `priority` is `Optional[int]` with
default `1` — it is `none` only when the request explicitly supplied a
JSON `null`. -/
structure TicketCreate where
  title : String
  descr : String
  priority : Option Int
  deriving Repr, DecidableEq

/-- A raw create body before validation.  `title`/`descr` are `none`
when the field is absent (or JSON `null`, which the required `str`
fields equally reject); `priority`'s outer `Option` is
absent-vs-present and its inner `Option` is `null`-vs-integer. -/
structure RawTicketCreate where
  title : Option String
  descr : Option String
  priority : Option (Option Int)
  deriving Repr, DecidableEq

/-- The update payload (`TicketUpdate` in `src/tickets/schemas.py`).
Every field is optional; for each field the outer `Option` records
whether the field was present in the request body (pydantic's
`fields_set`, observed through `model_dump(exclude_unset := true)`) and
the inner `Option` records JSON `null` versus a value. -/
structure TicketUpdate where
  title : Option (Option String)
  descr : Option (Option String)
  is_completed : Option (Option Bool)
  priority : Option (Option Int)
  deriving Repr, DecidableEq

/-- The update payload with no field set: `TicketUpdate()`. -/
def TicketUpdate.empty : TicketUpdate := ⟨none, none, none, none⟩

/-- Validation failure, surfaced by FastAPI as HTTP 422. -/
inductive ValidationError where
  | unprocessable
  deriving Repr, DecidableEq

/-- Errors surfaced by the service/store layers: `notFound` is the
HTTP 404 raised by `TicketService`; `storeError` is a store-level
constraint violation propagating uncaught (HTTP 500). -/
inductive ServiceError where
  | notFound
  | storeError
  deriving Repr, DecidableEq

/-- Errors of the whole HTTP surface. -/
inductive ApiError where
  | unprocessable
  | notFound
  | serverError
  deriving Repr, DecidableEq

/-- Embeds `Field(min_length 1, max_length 200)` on a string value. -/
def titleValOk (t : String) : Bool :=
  decide (1 ≤ t.length) && decide (t.length ≤ 200)

/-- Embeds `Field(min_length 1)` on a string value. -/
def descrValOk (d : String) : Bool :=
  decide (1 ≤ d.length)

/-- Embeds `Field(ge 1, le 5)` on an `Optional[int]` value: pydantic skips
numeric constraints when the value is `None`. -/
def prioValOk : Option Int → Bool
  | some p => decide (1 ≤ p) && decide (p ≤ 5)
  | none => true

/-- Pydantic validation of a create body (`TicketCreate`:
`title: str, min_length 1, max_length 200`; `description: str,
min_length 1`; `priority: Optional[int] = Field(default 1, ge 1, le 5)`).
A present integer priority must lie in `[1,5]`; an explicit `null`
priority passes (constraints are not applied to `None`); an absent
priority defaults to `1`. -/
def validateCreate (r : RawTicketCreate) : Except ValidationError TicketCreate :=
  match r.title, r.descr with
  | some t, some d =>
      if titleValOk t && descrValOk d then
        match r.priority with
        | none => .ok ⟨t, d, some 1⟩
        | some v => if prioValOk v then .ok ⟨t, d, v⟩ else .error .unprocessable
      else .error .unprocessable
  | _, _ => .error .unprocessable

/-- Pydantic validation of an update body (`TicketUpdate`): each field
may be absent; a present non-null `title` needs length in `[1,200]`, a
present non-null `description` needs length `≥ 1`, a present non-null
`priority` needs value in `[1,5]`; explicit `null`s pass validation
(constraints are skipped for `None`). -/
def validateUpdate (u : TicketUpdate) : Except ValidationError TicketUpdate :=
  if (match u.title with | some (some t) => titleValOk t | _ => true) &&
     (match u.descr with | some (some d) => descrValOk d | _ => true) &&
     (match u.priority with | some v => prioValOk v | none => true) then
    .ok u
  else .error .unprocessable

/-- Router query-parameter validation for the list endpoint
(`router.py`): `skip : int = Query(default 0, ge 0)`,
`limit : int = Query(default 100, ge 1, le 100)`. -/
def validateListParams (skip limit : Option Int) :
    Except ValidationError (Nat × Nat) :=
  match skip, limit with
  | sk, li =>
      let sv := sk.getD 0
      let lv := li.getD 100
      if 0 ≤ sv ∧ 1 ≤ lv ∧ lv ≤ 100 then .ok (sv.toNat, lv.toNat)
      else .error .unprocessable

/-- Embeds `"CRITICAL" in title.upper() or "URGENTE" in title.upper()`
(`TicketService.create_ticket`): substring search in the upper-cased
title (per-character case mapping; the keywords are ASCII). -/
def containsCritical (title : String) : Bool :=
  decide ("CRITICAL".toList <:+: title.toList.map Char.toUpper) ||
  decide ("URGENTE".toList <:+: title.toList.map Char.toUpper)

/-- The relational store: rows in insertion order plus the
auto-increment primary-key counter (PostgreSQL identity column,
starting at 1, never reused). -/
structure StoreState where
  tickets : List Ticket
  nextId : Nat
  deriving Repr, DecidableEq

/-- The store right after `create_db_and_tables`. -/
def StoreState.init : StoreState := ⟨[], 1⟩

/-- Embeds `TicketRepository.get_by_id`: `session.get(Ticket, ticket_id)`,
primary-key lookup. -/
def get_by_id (s : StoreState) (ticket_id : Nat) : Option Ticket :=
  s.tickets.find? (fun t => t.id == ticket_id)

/-- Embeds `TicketService.create_ticket`: escalate the priority to 5 when the
upper-cased title contains `"CRITICAL"` or `"URGENTE"`, then insert a
`Ticket` row (the store assigns the id; `is_completed` takes its
column default `false`). -/
def create_ticket (s : StoreState) (cd : TicketCreate) : StoreState × Ticket :=
  let priority := if containsCritical cd.title then some 5 else cd.priority
  let t : Ticket := ⟨s.nextId, cd.title, cd.descr, false, priority⟩
  (⟨s.tickets ++ [t], s.nextId + 1⟩, t)

/-- Embeds `TicketService.get_ticket`: fetch by id, HTTP 404 when absent. -/
def get_ticket (s : StoreState) (ticket_id : Nat) : Except ServiceError Ticket :=
  match get_by_id s ticket_id with
  | some t => .ok t
  | none => .error .notFound

/-- Embeds `TicketRepository.get_all` / `TicketService.get_all_tickets`:
`select(Ticket).offset(skip).limit(limit)` over the insertion-ordered
table. -/
def get_all_tickets (s : StoreState) (skip limit : Nat) : List Ticket :=
  (s.tickets.drop skip).take limit

/-- The partial merge of `TicketService.update_ticket`: for each field
in `model_dump(exclude_unset := true)`, `setattr` the ticket; a field
present with an explicit `null` overwrites with `None` (only
representable on the nullable `priority` column — the NOT NULL cases
are rejected by the store, see `setsNullColumn`). -/
def applyUpdate (t : Ticket) (u : TicketUpdate) : Ticket :=
  { t with
    title := match u.title with | some (some v) => v | _ => t.title
    descr := match u.descr with | some (some v) => v | _ => t.descr
    is_completed := match u.is_completed with | some (some v) => v | _ => t.is_completed
    priority := u.priority.getD t.priority }

/-- An update payload that writes JSON `null` into a NOT NULL column
(`title`, `description`, `is_completed`): the commit violates the
column constraint and the store rejects the transaction. -/
def setsNullColumn (u : TicketUpdate) : Bool :=
  u.title == some none || u.descr == some none || u.is_completed == some none

/-- Embeds `TicketService.update_ticket`: fetch (404 when absent), merge the
set fields, persist.  On any error the transaction leaves the store
unchanged. -/
def update_ticket (s : StoreState) (ticket_id : Nat) (u : TicketUpdate) :
    Except ServiceError Ticket × StoreState :=
  match get_by_id s ticket_id with
  | none => (.error .notFound, s)
  | some t =>
      if setsNullColumn u then (.error .storeError, s)
      else
        let t' := applyUpdate t u
        (.ok t',
         ⟨s.tickets.map (fun x => if x.id == ticket_id then t' else x), s.nextId⟩)

/-- Embeds `TicketService.delete_ticket`: fetch (404 when absent), then delete
the row with that primary key. -/
def delete_ticket (s : StoreState) (ticket_id : Nat) :
    Except ServiceError Unit × StoreState :=
  match get_by_id s ticket_id with
  | none => (.error .notFound, s)
  | some _ => (.ok (), ⟨s.tickets.filter (fun t => ¬ t.id = ticket_id), s.nextId⟩)

/-- POST `/tickets/` : body validation (422) then the service. -/
def createEndpoint (s : StoreState) (r : RawTicketCreate) :
    Except ApiError Ticket × StoreState :=
  match validateCreate r with
  | .error _ => (.error .unprocessable, s)
  | .ok cd => (.ok (create_ticket s cd).2, (create_ticket s cd).1)

/-- GET `/tickets/` : query-parameter validation (422) then the
service; `skip`/`limit` default to 0/100. -/
def listEndpoint (s : StoreState) (skip limit : Option Int) :
    Except ApiError (List Ticket) :=
  match validateListParams skip limit with
  | .error _ => .error .unprocessable
  | .ok (sk, li) => .ok (get_all_tickets s sk li)

/-- PUT `/tickets/{id}` : body validation (422) then the service. -/
def updateEndpoint (s : StoreState) (ticket_id : Nat) (u : TicketUpdate) :
    Except ApiError Ticket × StoreState :=
  match validateUpdate u with
  | .error _ => (.error .unprocessable, s)
  | .ok u' =>
      match update_ticket s ticket_id u' with
      | (.ok t, s') => (.ok t, s')
      | (.error .notFound, s') => (.error .notFound, s')
      | (.error .storeError, s') => (.error .serverError, s')

/-- Create payloads accepted by pydantic validation (the image of
`validateCreate`). -/
def ValidCreate (cd : TicketCreate) : Bool :=
  titleValOk cd.title && descrValOk cd.descr && prioValOk cd.priority

/-- Update payloads accepted by pydantic validation (the image of
`validateUpdate`). -/
def ValidUpdate (u : TicketUpdate) : Bool :=
  (match u.title with | some (some t) => titleValOk t | _ => true) &&
  (match u.descr with | some (some d) => descrValOk d | _ => true) &&
  (match u.priority with | some v => prioValOk v | none => true)

/-- Store states reachable from the empty store through the HTTP
surface with validated inputs. -/
inductive Reachable : StoreState → Prop where
  | init : Reachable StoreState.init
  | create {s cd} : Reachable s → ValidCreate cd = true →
      Reachable (create_ticket s cd).1
  | update {s id u} : Reachable s → ValidUpdate u = true →
      Reachable (update_ticket s id u).2
  | delete {s id} : Reachable s → Reachable (delete_ticket s id).2

/-- Well-formedness of a store state: primary keys are pairwise
distinct and below the auto-increment counter. -/
def StoreState.WF (s : StoreState) : Prop :=
  (s.tickets.map Ticket.id).Nodup ∧ ∀ t ∈ s.tickets, t.id < s.nextId

/-! ## The settings accessor (`src/config.py`) -/

/-- The process environment as seen by `pydantic_settings`:
`DATABASE_URL` and `SECRET_KEY` are required, the rest fall back to
the declared defaults when unset. -/
structure Env where
  APP_NAME : Option String
  VERSION : Option String
  DATABASE_URL : String
  SECRET_KEY : String
  ALGORITHM : Option String
  ACCESS_TOKEN_EXPIRE_MINUTES : Option Int
  DEBUG_MODE : Option Bool
  deriving Repr, DecidableEq

/-- The `Settings` model of `src/config.py`. -/
structure Settings where
  APP_NAME : String
  VERSION : String
  DATABASE_URL : String
  SECRET_KEY : String
  ALGORITHM : String
  ACCESS_TOKEN_EXPIRE_MINUTES : Int
  DEBUG_MODE : Bool
  deriving Repr, DecidableEq

/-- Embeds `Settings()`: read the environment, applying field defaults. -/
def loadSettings (e : Env) : Settings :=
  { APP_NAME := e.APP_NAME.getD "ServiceMaster API"
    VERSION := e.VERSION.getD "1.0.0"
    DATABASE_URL := e.DATABASE_URL
    SECRET_KEY := e.SECRET_KEY
    ALGORITHM := e.ALGORITHM.getD "HS256"
    ACCESS_TOKEN_EXPIRE_MINUTES := e.ACCESS_TOKEN_EXPIRE_MINUTES.getD 30
    DEBUG_MODE := e.DEBUG_MODE.getD false }

/-- Embeds `@lru_cache def get_settings()`: the cache is the memo cell of the
zero-argument function; a hit returns the cached `Settings` without
touching the environment, a miss loads and fills the cell. -/
def get_settings (cache : Option Settings) (e : Env) :
    Settings × Option Settings :=
  match cache with
  | some s => (s, some s)
  | none => let s := loadSettings e; (s, some s)

/-! ## Helper lemmas -/

/-- A successful body validation relates the raw create body to the
validated payload: title and description are passed through and the
priority field defaults to `1` only when absent. -/
theorem validateCreate_ok {r : RawTicketCreate} {cd : TicketCreate}
    (h : validateCreate r = .ok cd) :
    r.title = some cd.title ∧ r.descr = some cd.descr ∧
    cd.priority = r.priority.getD (some 1) := by
  rcases r with ⟨ot, od, op⟩
  cases ot with
  | none => simp [validateCreate] at h
  | some t =>
    cases od with
    | none => simp [validateCreate] at h
    | some d =>
      cases op with
      | none =>
        simp only [validateCreate] at h
        split at h
        · cases h; simp
        · cases h
      | some v =>
        simp only [validateCreate] at h
        split at h
        · split at h
          · cases h; simp
          · cases h
        · cases h

/-- The priority stored by `create_ticket`. -/
theorem create_ticket_priority (s : StoreState) (cd : TicketCreate) :
    ((create_ticket s cd).2).priority =
      if containsCritical cd.title then some 5 else cd.priority := rfl

/-- The title stored by `create_ticket`. -/
theorem create_ticket_title (s : StoreState) (cd : TicketCreate) :
    ((create_ticket s cd).2).title = cd.title := rfl

/-! ## Witness fixtures -/

/-- A stored example ticket. -/
def wTicket : Ticket := ⟨1, "routine", "d", false, some 3⟩

/-- A store holding the example ticket. -/
def wStore : StoreState := ⟨[wTicket], 2⟩

/-- A create body whose title triggers the escalation rule. -/
def wRawCrit : RawTicketCreate := ⟨some "CRITICAL: outage", some "x", some (some 1)⟩

/-- A plain create body. -/
def wRawPlain : RawTicketCreate := ⟨some "routine", some "x", none⟩

/-- An example environment. -/
def wEnv1 : Env := ⟨none, none, "postgresql://db1", "s3cret", none, none, none⟩

/-- A second, different environment. -/
def wEnv2 : Env := ⟨some "Other", none, "postgresql://db2", "other", none, some 60, some true⟩

/-! ## Claims -/

/-- C1: for every create request accepted by the POST endpoint, a title
containing "CRITICAL" or "URGENTE" (compared case-insensitively) forces
the created ticket's priority to 5 regardless of the supplied priority;
for a title containing neither, the created ticket's priority equals the
supplied one, and equals 1 when the request supplied no priority. -/
theorem claim1_create_priority_rule (s : StoreState) (r : RawTicketCreate)
    (t : Ticket) (s' : StoreState) (ti : String)
    (hok : createEndpoint s r = (.ok t, s')) (hti : r.title = some ti) :
    (containsCritical ti = true → t.priority = some 5) ∧
    (containsCritical ti = false →
      t.priority = r.priority.getD (some 1) ∧
      (r.priority = none → t.priority = some 1)) := by
  unfold createEndpoint at hok
  cases hv : validateCreate r with
  | error e => rw [hv] at hok; cases hok
  | ok cd =>
    rw [hv] at hok
    simp only [Prod.mk.injEq, Except.ok.injEq] at hok
    obtain ⟨ht, _⟩ := hok
    subst ht
    obtain ⟨h1, _, h3⟩ := validateCreate_ok hv
    have hcd : cd.title = ti := by rw [h1] at hti; exact Option.some.inj hti
    constructor
    · intro hc
      rw [create_ticket_priority, hcd, hc]
      simp
    · intro hc
      refine ⟨?_, ?_⟩
      · rw [create_ticket_priority, hcd, hc, h3]
        simp
      · intro hnone
        rw [create_ticket_priority, hcd, hc, h3, hnone]
        simp

/-- Witness for C1: the endpoint accepts the concrete critical-titled
request and the theorem yields priority 5. -/
theorem claim1_witness :
    containsCritical "CRITICAL: outage" = true ∧
    (⟨1, "CRITICAL: outage", "x", false, some 5⟩ : Ticket).priority = some 5 :=
  ⟨by decide,
   (claim1_create_priority_rule StoreState.init wRawCrit
      ⟨1, "CRITICAL: outage", "x", false, some 5⟩
      ⟨[⟨1, "CRITICAL: outage", "x", false, some 5⟩], 2⟩
      "CRITICAL: outage" rfl rfl).1 (by decide)⟩

/-- C9: the create schema exposes no `is_completed` field, so every
ticket produced by an accepted create request has `is_completed`
equal to `false`. -/
theorem claim9_create_never_completed (s : StoreState) (r : RawTicketCreate)
    (t : Ticket) (s' : StoreState)
    (hok : createEndpoint s r = (.ok t, s')) :
    t.is_completed = false := by
  unfold createEndpoint at hok
  cases hv : validateCreate r with
  | error e => rw [hv] at hok; cases hok
  | ok cd =>
    rw [hv] at hok
    simp only [Prod.mk.injEq, Except.ok.injEq] at hok
    obtain ⟨ht, _⟩ := hok
    subst ht
    rfl

/-- Witness for C9 at a concrete create request. -/
theorem claim9_witness :
    (⟨1, "routine", "x", false, some 1⟩ : Ticket).is_completed = false :=
  claim9_create_never_completed StoreState.init wRawPlain
    ⟨1, "routine", "x", false, some 1⟩
    ⟨[⟨1, "routine", "x", false, some 1⟩], 2⟩ rfl

/-- C8: the settings accessor is a process-wide memo cell — after any
call, every later call returns the same cached `Settings` and leaves
the cell untouched, regardless of the environment at that later call;
the first call is the one that reads the environment. -/
theorem claim8_settings_cached_once (cache : Option Settings) (e : Env) :
    (∀ e2, get_settings (get_settings cache e).2 e2 =
      ((get_settings cache e).1, (get_settings cache e).2)) ∧
    (cache = none → (get_settings cache e).1 = loadSettings e) ∧
    (∀ s0, cache = some s0 → (get_settings cache e).1 = s0) := by
  cases cache <;> simp [get_settings]

/-- Witness for C8: fill the cache from `wEnv1`, then call again under
the different environment `wEnv2`; the cached value is returned. -/
theorem claim8_witness :
    get_settings (get_settings none wEnv1).2 wEnv2 =
      ((get_settings none wEnv1).1, (get_settings none wEnv1).2) :=
  (claim8_settings_cached_once none wEnv1).1 wEnv2

/-- Characterization of a successful `update_ticket`: the result is the
partial merge of the found ticket, no NOT NULL column was nulled, and
the new store replaces exactly the row with the updated id. -/
theorem update_ticket_ok {s : StoreState} {id : Nat} {u : TicketUpdate}
    {t t' : Ticket} {s' : StoreState}
    (hfind : get_by_id s id = some t)
    (hok : update_ticket s id u = (.ok t', s')) :
    t' = applyUpdate t u ∧ setsNullColumn u = false ∧
    s' = ⟨s.tickets.map (fun x => if x.id == id then t' else x), s.nextId⟩ := by
  simp only [update_ticket, hfind] at hok
  cases hnull : setsNullColumn u with
  | true =>
    rw [hnull, if_pos rfl] at hok
    simp at hok
  | false =>
    rw [hnull, if_neg (by decide)] at hok
    simp only [Prod.mk.injEq, Except.ok.injEq] at hok
    obtain ⟨h1, h2⟩ := hok
    subst h1
    exact ⟨rfl, rfl, h2.symm⟩

/-- C3: the update operation never re-evaluates the priority-escalation
rule — an update whose payload sets the title to a string containing
"CRITICAL" or "URGENTE" (any case) but does not set priority leaves the
ticket's priority unchanged. -/
theorem claim3_update_never_reescalates (s : StoreState) (id : Nat)
    (u : TicketUpdate) (t t' : Ticket) (s' : StoreState) (v : String)
    (hfind : get_by_id s id = some t)
    (htitle : u.title = some (some v))
    (hcrit : containsCritical v = true)
    (hprio : u.priority = none)
    (hok : update_ticket s id u = (.ok t', s')) :
    t'.priority = t.priority := by
  obtain ⟨ht', _, _⟩ := update_ticket_ok hfind hok
  subst ht'
  simp [applyUpdate, hprio]

/-- Witness for C3: retitling the stored ticket to "now CRITICAL"
without touching priority keeps priority 3. -/
theorem claim3_witness :
    (⟨1, "now CRITICAL", "d", false, some 3⟩ : Ticket).priority = wTicket.priority :=
  claim3_update_never_reescalates wStore 1
    ⟨some (some "now CRITICAL"), none, none, none⟩
    wTicket ⟨1, "now CRITICAL", "d", false, some 3⟩
    ⟨[⟨1, "now CRITICAL", "d", false, some 3⟩], 2⟩
    "now CRITICAL" rfl rfl (by decide) rfl rfl

/-- C4: a successful update overwrites exactly the fields explicitly
present in the payload — every absent field keeps its previous value,
the id is never touched, and rows with other ids survive untouched. -/
theorem claim4_update_partial_merge (s : StoreState) (id : Nat)
    (u : TicketUpdate) (t t' : Ticket) (s' : StoreState)
    (hfind : get_by_id s id = some t)
    (hok : update_ticket s id u = (.ok t', s')) :
    t'.id = t.id ∧
    (u.title = none → t'.title = t.title) ∧
    (∀ v, u.title = some (some v) → t'.title = v) ∧
    (u.descr = none → t'.descr = t.descr) ∧
    (∀ v, u.descr = some (some v) → t'.descr = v) ∧
    (u.is_completed = none → t'.is_completed = t.is_completed) ∧
    (∀ v, u.is_completed = some (some v) → t'.is_completed = v) ∧
    (u.priority = none → t'.priority = t.priority) ∧
    (∀ v, u.priority = some v → t'.priority = v) ∧
    (∀ x ∈ s.tickets, x.id ≠ id → x ∈ s'.tickets) := by
  obtain ⟨ht', _, hs'⟩ := update_ticket_ok hfind hok
  subst ht'
  subst hs'
  refine ⟨rfl, ?_, ?_, ?_, ?_, ?_, ?_, ?_, ?_, ?_⟩
  · intro h; simp [applyUpdate, h]
  · intro v h; simp [applyUpdate, h]
  · intro h; simp [applyUpdate, h]
  · intro v h; simp [applyUpdate, h]
  · intro h; simp [applyUpdate, h]
  · intro v h; simp [applyUpdate, h]
  · intro h; simp [applyUpdate, h]
  · intro v h; simp [applyUpdate, h]
  · intro x hx hne
    have hfx : (if x.id == id then applyUpdate t u else x) = x := by
      simp [hne]
    exact hfx ▸ List.mem_map_of_mem (fun x => if x.id == id then applyUpdate t u else x) hx

/-- Witness for C4: setting only `is_completed` on the stored ticket
keeps title, description and priority. -/
theorem claim4_witness :
    (⟨1, "routine", "d", true, some 3⟩ : Ticket).title = wTicket.title ∧
    (⟨1, "routine", "d", true, some 3⟩ : Ticket).descr = wTicket.descr ∧
    (⟨1, "routine", "d", true, some 3⟩ : Ticket).priority = wTicket.priority := by
  have h := claim4_update_partial_merge wStore 1
    ⟨none, none, some (some true), none⟩
    wTicket ⟨1, "routine", "d", true, some 3⟩
    ⟨[⟨1, "routine", "d", true, some 3⟩], 2⟩ rfl rfl
  exact ⟨h.2.1 rfl, h.2.2.2.1 rfl, h.2.2.2.2.2.2.2.1 rfl⟩

/-- C10: an update with an empty payload on an existing ticket of a
well-formed store succeeds and is an identity: it returns the stored
ticket unchanged and leaves the store unchanged. -/
theorem claim10_empty_update_identity (s : StoreState) (id : Nat) (t : Ticket)
    (hwf : s.WF)
    (hfind : get_by_id s id = some t) :
    update_ticket s id TicketUpdate.empty = (.ok t, s) := by
  obtain ⟨tks, ni⟩ := s
  have hmem : t ∈ tks := List.mem_of_find?_eq_some hfind
  have htid : t.id = id := by
    have := List.find?_some hfind
    simpa using this
  simp only [update_ticket, hfind]
  have hnull : setsNullColumn TicketUpdate.empty = false := rfl
  rw [hnull, if_neg (by decide)]
  have happ : applyUpdate t TicketUpdate.empty = t := rfl
  rw [happ]
  have hmap : tks.map (fun x => if x.id == id then t else x) = tks := by
    have hcong : ∀ x ∈ tks, (if x.id == id then t else x) = x := by
      intro x hx
      by_cases hxi : x.id = id
      · have hxt : t = x := List.inj_on_of_nodup_map hwf.1 hmem hx (htid.trans hxi.symm)
        simp [hxi, hxt]
      · simp [hxi]
    calc tks.map (fun x => if x.id == id then t else x) = tks.map (fun x => x) :=
          List.map_congr_left hcong
    _ = tks := List.map_id _
  rw [hmap]

/-- Witness for C10 on the concrete one-ticket store. -/
theorem claim10_witness :
    update_ticket wStore 1 TicketUpdate.empty = (.ok wTicket, wStore) :=
  claim10_empty_update_identity wStore 1 wTicket (by constructor <;> decide) rfl

/-- C5: for an id absent from the store, get-by-id, update and delete
each signal not-found (HTTP 404) and leave the store unchanged; and a
get following a delete of the same id always yields not-found. -/
theorem claim5_absent_id_not_found (s : StoreState) (id : Nat) (u : TicketUpdate) :
    (get_by_id s id = none →
      get_ticket s id = .error .notFound ∧
      update_ticket s id u = (.error .notFound, s) ∧
      delete_ticket s id = (.error .notFound, s)) ∧
    get_ticket (delete_ticket s id).2 id = .error .notFound := by
  constructor
  · intro h
    refine ⟨?_, ?_, ?_⟩ <;> simp [get_ticket, update_ticket, delete_ticket, h]
  · cases h : get_by_id s id with
    | none => simp [delete_ticket, h, get_ticket]
    | some t =>
      simp only [delete_ticket, h]
      unfold get_ticket get_by_id
      have hnone : (s.tickets.filter (fun x => ¬ x.id = id)).find?
          (fun x => x.id == id) = none := by
        rw [List.find?_eq_none]
        intro x hx
        have hmem := (List.mem_filter.mp hx).2
        simp at hmem ⊢
        exact hmem
      rw [hnone]

/-- Witness for C5: id 99 is absent from the one-ticket store; deleting
id 1 then getting id 1 yields not-found. -/
theorem claim5_witness :
    get_ticket wStore 99 = .error .notFound ∧
    update_ticket wStore 99 TicketUpdate.empty = (.error .notFound, wStore) ∧
    delete_ticket wStore 99 = (.error .notFound, wStore) ∧
    get_ticket (delete_ticket wStore 1).2 1 = .error .notFound := by
  have h99 := claim5_absent_id_not_found wStore 99 TicketUpdate.empty
  have h1 := claim5_absent_id_not_found wStore 1 TicketUpdate.empty
  have habs := h99.1 rfl
  exact ⟨habs.1, habs.2.1, habs.2.2, h1.2⟩

/-- A create body failing validation never reaches the service. -/
theorem createEndpoint_error {r : RawTicketCreate} (s : StoreState)
    (h : validateCreate r = .error .unprocessable) :
    createEndpoint s r = (.error .unprocessable, s) := by
  simp [createEndpoint, h]

/-- An update body failing validation never reaches the service. -/
theorem updateEndpoint_error {u : TicketUpdate} (s : StoreState) (id : Nat)
    (h : validateUpdate u = .error .unprocessable) :
    updateEndpoint s id u = (.error .unprocessable, s) := by
  simp [updateEndpoint, h]

/-- A title of bad length fails the pydantic length constraints. -/
theorem titleValOk_false {t : String} (hbad : t.length = 0 ∨ 200 < t.length) :
    titleValOk t = false := by
  simp only [titleValOk, Bool.and_eq_false_iff, decide_eq_false_iff_not]
  omega

/-- C7: validation runs before any business logic — a create or update
body with an empty title, an over-long title, an empty description or
an out-of-range priority is rejected with HTTP 422 and the store is
left untouched; the list endpoint defaults to skip 0 / limit 100 and
rejects any limit above 100. -/
theorem claim7_validation_first (s : StoreState) (id : Nat)
    (r : RawTicketCreate) (u : TicketUpdate) :
    (∀ t, r.title = some t → t.length = 0 ∨ 200 < t.length →
      createEndpoint s r = (.error .unprocessable, s)) ∧
    (∀ d, r.descr = some d → d.length = 0 →
      createEndpoint s r = (.error .unprocessable, s)) ∧
    (∀ p, r.priority = some (some p) → (p < 1 ∨ 5 < p) →
      createEndpoint s r = (.error .unprocessable, s)) ∧
    (∀ t, u.title = some (some t) → t.length = 0 ∨ 200 < t.length →
      updateEndpoint s id u = (.error .unprocessable, s)) ∧
    (∀ d, u.descr = some (some d) → d.length = 0 →
      updateEndpoint s id u = (.error .unprocessable, s)) ∧
    (∀ p, u.priority = some (some p) → (p < 1 ∨ 5 < p) →
      updateEndpoint s id u = (.error .unprocessable, s)) ∧
    listEndpoint s none none = .ok (get_all_tickets s 0 100) ∧
    (∀ sk l, 100 < l → listEndpoint s sk (some l) = .error .unprocessable) := by
  obtain ⟨rt, rd, rp⟩ := r
  obtain ⟨ut, ud, uc, up⟩ := u
  refine ⟨?_, ?_, ?_, ?_, ?_, ?_, ?_, ?_⟩
  · intro t ht hbad
    apply createEndpoint_error
    cases ht
    cases rd with
    | none => rfl
    | some d => simp [validateCreate, titleValOk_false hbad]
  · intro d hd hbad
    apply createEndpoint_error
    cases hd
    cases rt with
    | none => rfl
    | some t =>
      have : descrValOk d = false := by
        simp only [descrValOk, decide_eq_false_iff_not]
        omega
      simp [validateCreate, this]
  · intro p hp hbad
    apply createEndpoint_error
    cases hp
    cases rt with
    | none => rfl
    | some t =>
      cases rd with
      | none => rfl
      | some d =>
        have : prioValOk (some p) = false := by
          simp only [prioValOk, Bool.and_eq_false_iff, decide_eq_false_iff_not]
          omega
        simp only [validateCreate, this]
        split <;> simp
  · intro t ht hbad
    apply updateEndpoint_error
    cases ht
    simp [validateUpdate, titleValOk_false hbad]
  · intro d hd hbad
    apply updateEndpoint_error
    cases hd
    have : descrValOk d = false := by
      simp only [descrValOk, decide_eq_false_iff_not]
      omega
    simp [validateUpdate, this]
  · intro p hp hbad
    apply updateEndpoint_error
    cases hp
    have : prioValOk (some p) = false := by
      simp only [prioValOk, Bool.and_eq_false_iff, decide_eq_false_iff_not]
      omega
    simp [validateUpdate, this]
  · rfl
  · intro sk l hl
    have hv : validateListParams sk (some l) = .error .unprocessable := by
      simp only [validateListParams, Option.getD_some]
      rw [if_neg]
      rintro ⟨_, _, h3⟩
      omega
    simp [listEndpoint, hv]

/-- Witness for C7: an empty title, a priority of 9 and a limit of 101
are each rejected with 422 at concrete inputs. -/
theorem claim7_witness :
    createEndpoint wStore ⟨some "", some "x", none⟩ = (.error .unprocessable, wStore) ∧
    updateEndpoint wStore 1 ⟨none, none, none, some (some 9)⟩ = (.error .unprocessable, wStore) ∧
    listEndpoint wStore none (some 101) = .error .unprocessable := by
  have h := claim7_validation_first wStore 1 ⟨some "", some "x", none⟩
    ⟨none, none, none, some (some 9)⟩
  exact ⟨h.1 "" rfl (by decide), h.2.2.2.2.2.1 9 rfl (by decide),
         h.2.2.2.2.2.2.2 none 101 (by decide)⟩

/-- Page-count recurrence: one page of size `k` plus the pages of the
remaining `N - k` items. -/
theorem pages_succ (k N : Nat) (hk : 0 < k) (hN : 0 < N) :
    (N + k - 1) / k = ((N - k) + k - 1) / k + 1 := by
  rcases le_or_lt N k with hle | hge
  · have h1 : N - k = 0 := by omega
    rw [h1]
    have h2 : (N + k - 1) / k = 1 := by
      have h3 : N + k - 1 = (N - 1) + k := by omega
      rw [h3, Nat.add_div_right _ hk]
      have h4 : (N - 1) / k = 0 := Nat.div_eq_of_lt (by omega)
      omega
    have h5 : 0 + k - 1 = k - 1 := by omega
    rw [h2, h5]
    have h6 : (k - 1) / k = 0 := Nat.div_eq_of_lt (by omega)
    omega
  · have h1 : N + k - 1 = (N - 1) + k := by omega
    have h2 : (N - k) + k - 1 = (N - k - 1) + k := by omega
    rw [h1, h2, Nat.add_div_right _ hk, Nat.add_div_right _ hk]
    have h3 : N - 1 = (N - k - 1) + k := by omega
    rw [h3, Nat.add_div_right _ hk]

/-- Splitting any list into `⌈length/k⌉` consecutive drop/take pages of
size `k` and concatenating them gives back the list. -/
theorem join_chunks {α : Type} (k : Nat) (hk : 0 < k) :
    ∀ (n : Nat) (l : List α), l.length ≤ n →
      ((List.range ((l.length + k - 1) / k)).map
        (fun i => (l.drop (i * k)).take k)).flatten = l := by
  intro n
  induction n with
  | zero =>
    intro l hl
    have hnil : l = [] := List.length_eq_zero.mp (Nat.le_zero.mp hl)
    subst hnil
    have hz : (([] : List α).length + k - 1) / k = 0 := by
      simp only [List.length_nil]
      exact Nat.div_eq_of_lt (by omega)
    simp [hz]
  | succ n ih =>
    intro l hl
    cases l with
    | nil =>
      have hz : (([] : List α).length + k - 1) / k = 0 := by
        simp only [List.length_nil]
        exact Nat.div_eq_of_lt (by omega)
      simp [hz]
    | cons a tl =>
      have hpages : ((a :: tl).length + k - 1) / k
          = (((a :: tl).drop k).length + k - 1) / k + 1 := by
        rw [List.length_drop]
        exact pages_succ k (a :: tl).length hk (by simp)
      rw [hpages, List.range_succ_eq_map]
      simp only [List.map_cons, List.flatten_cons, List.map_map, Nat.zero_mul,
        List.drop_zero]
      have hcomp : ∀ i ∈ List.range ((((a :: tl).drop k).length + k - 1) / k),
          ((fun i => ((a :: tl).drop (i * k)).take k) ∘ Nat.succ) i
            = (fun i => (((a :: tl).drop k).drop (i * k)).take k) i := by
        intro i _
        simp only [Function.comp_apply, List.drop_drop]
        congr 2
        rw [Nat.succ_mul]
        omega
      rw [List.map_congr_left hcomp]
      have hlen : ((a :: tl).drop k).length ≤ n := by
        rw [List.length_drop]
        simp only [List.length_cons] at hl ⊢
        omega
      rw [ih ((a :: tl).drop k) hlen]
      exact List.take_append_drop k (a :: tl)

/-- Length of the final page: `N mod k`, or `k` when `k` divides `N`. -/
theorem last_page_length (k N : Nat) (hk : 0 < k) (hN : 0 < N) :
    min k (N - ((N + k - 1) / k - 1) * k) = if N % k = 0 then k else N % k := by
  obtain ⟨q, r, hrk, hN2⟩ : ∃ q r, r < k ∧ N = k * q + r :=
    ⟨N / k, N % k, Nat.mod_lt _ hk, (Nat.div_add_mod N k).symm⟩
  subst hN2
  by_cases hr : r = 0
  · subst hr
    have hq1 : 1 ≤ q := by
      rcases Nat.eq_zero_or_pos q with h | h
      · subst h; simp at hN
      · exact h
    have hpag : (k * q + 0 + k - 1) / k = q := by
      have h1 : k * q + 0 + k - 1 = k * q + (k - 1) := by omega
      rw [h1, Nat.mul_add_div hk]
      have h2 : (k - 1) / k = 0 := Nat.div_eq_of_lt (by omega)
      omega
    rw [hpag]
    have h3 : k * q + 0 - (q - 1) * k = k := by
      have h4 : (q - 1) * k + k = q * k := by
        have h5 : q - 1 + 1 = q := by omega
        calc (q - 1) * k + k = (q - 1 + 1) * k := by ring
        _ = q * k := by rw [h5]
      have h6 : k * q = q * k := Nat.mul_comm k q
      omega
    rw [h3]
    have hmodz : (k * q + 0) % k = 0 := by
      simp [Nat.mul_mod_right]
    rw [hmodz]
    simp
  · have hpag : (k * q + r + k - 1) / k = q + 1 := by
      have h1 : k * q + r + k - 1 = k * q + (r + k - 1) := by omega
      rw [h1, Nat.mul_add_div hk]
      have h2 : (r + k - 1) / k = 1 := by
        have h3 : r + k - 1 = (r - 1) + k := by omega
        rw [h3, Nat.add_div_right _ hk]
        have h4 : (r - 1) / k = 0 := Nat.div_eq_of_lt (by omega)
        omega
      omega
    rw [hpag]
    have h5 : q + 1 - 1 = q := by omega
    rw [h5]
    have h6 : k * q + r - q * k = r := by
      have h7 : k * q = q * k := Nat.mul_comm k q
      omega
    rw [h6]
    have hmodr : (k * q + r) % k = r := by
      rw [Nat.mul_add_mod]
      exact Nat.mod_eq_of_lt hrk
    rw [hmodr, if_neg hr]
    omega

/-- A three-ticket store for the pagination witness. -/
def wStore3 : StoreState :=
  ⟨[⟨1, "t1", "d", false, some 1⟩, ⟨2, "t2", "d", false, some 2⟩,
    ⟨3, "t3", "d", false, some 3⟩], 4⟩

/-- C2: paging through the list operation with skip 0, k, 2k, … and
limit k returns every stored ticket exactly once in insertion order —
the concatenation of the pages is the stored list — and, when the store
is non-empty, the final page holds `N mod k` tickets, or `k` when `k`
divides `N`. -/
theorem claim2_pagination_covers (s : StoreState) (k : Nat)
    (h1 : 1 ≤ k) (h2 : k ≤ 100) :
    ((List.range ((s.tickets.length + k - 1) / k)).map
        (fun i => get_all_tickets s (i * k) k)).flatten = s.tickets ∧
    (s.tickets ≠ [] →
      (get_all_tickets s (((s.tickets.length + k - 1) / k - 1) * k) k).length
        = if s.tickets.length % k = 0 then k else s.tickets.length % k) := by
  constructor
  · exact join_chunks k h1 s.tickets.length s.tickets le_rfl
  · intro hne
    have hN : 0 < s.tickets.length := List.length_pos.mpr hne
    have hlen : (get_all_tickets s (((s.tickets.length + k - 1) / k - 1) * k) k).length
        = min k (s.tickets.length - ((s.tickets.length + k - 1) / k - 1) * k) := by
      simp [get_all_tickets, List.length_take, List.length_drop]
    rw [hlen]
    exact last_page_length k s.tickets.length h1 hN

/-- Witness for C2: three tickets with page size 2 — two pages, the
final one of length 1 = 3 mod 2. -/
theorem claim2_witness :
    ((List.range ((wStore3.tickets.length + 2 - 1) / 2)).map
        (fun i => get_all_tickets wStore3 (i * 2) 2)).flatten = wStore3.tickets ∧
    (get_all_tickets wStore3 (((wStore3.tickets.length + 2 - 1) / 2 - 1) * 2) 2).length
      = if wStore3.tickets.length % 2 = 0 then 2 else wStore3.tickets.length % 2 :=
  ⟨(claim2_pagination_covers wStore3 2 (by decide) (by decide)).1,
   (claim2_pagination_covers wStore3 2 (by decide) (by decide)).2 (by decide)⟩

/-- Updates never change any primary key: the list of ids is untouched. -/
theorem update_preserves_ids (s : StoreState) (id : Nat) (u : TicketUpdate) :
    ((update_ticket s id u).2).tickets.map Ticket.id = s.tickets.map Ticket.id := by
  cases hfound : get_by_id s id with
  | none => simp [update_ticket, hfound]
  | some t =>
    have htid : t.id = id := by
      have := List.find?_some hfound
      simpa using this
    simp only [update_ticket, hfound]
    cases hnull : setsNullColumn u with
    | true => rw [if_pos rfl]
    | false =>
      rw [if_neg (by decide)]
      simp only [List.map_map]
      apply List.map_congr_left
      intro x hx
      simp only [Function.comp_apply]
      by_cases hxi : x.id = id
      · have : (applyUpdate t u).id = t.id := rfl
        simp [hxi, this, htid]
      · simp [hxi]

/-- The auto-increment counter survives updates unchanged. -/
theorem update_preserves_nextId (s : StoreState) (id : Nat) (u : TicketUpdate) :
    ((update_ticket s id u).2).nextId = s.nextId := by
  cases hfound : get_by_id s id with
  | none => simp [update_ticket, hfound]
  | some t =>
    simp only [update_ticket, hfound]
    cases hnull : setsNullColumn u with
    | true => rw [if_pos rfl]
    | false => rw [if_neg (by decide)]

/-- Stored priorities are in range whenever they are present. -/
def PrioOk (s : StoreState) : Prop :=
  ∀ t ∈ s.tickets, ∀ p : Int, t.priority = some p → 1 ≤ p ∧ p ≤ 5

/-- Every reachable store state is well-formed (distinct, bounded ids)
and all present priorities are in `[1,5]`. -/
theorem reachable_wf (s : StoreState) (h : Reachable s) : s.WF ∧ PrioOk s := by
  induction h with
  | init =>
    refine ⟨⟨by simp [StoreState.init], ?_⟩, ?_⟩
    · intro t ht
      simp [StoreState.init] at ht
    · intro t ht
      simp [StoreState.init] at ht
  | @create s cd hr hv ih =>
    obtain ⟨⟨hnd, hbound⟩, hprio⟩ := ih
    have hprioCd : ∀ p : Int, cd.priority = some p → 1 ≤ p ∧ p ≤ 5 := by
      intro p hp
      have hv3 : prioValOk cd.priority = true := by
        simp only [ValidCreate, Bool.and_eq_true] at hv
        exact hv.2
      rw [hp] at hv3
      simp only [prioValOk, Bool.and_eq_true, decide_eq_true_eq] at hv3
      exact hv3
    refine ⟨⟨?_, ?_⟩, ?_⟩
    · simp only [create_ticket, List.map_append, List.map_cons, List.map_nil]
      rw [List.nodup_append]
      refine ⟨hnd, List.nodup_singleton _, ?_⟩
      intro a ha hb
      simp only [List.mem_singleton] at hb
      subst hb
      obtain ⟨x, hx, hxa⟩ := List.mem_map.mp ha
      have := hbound x hx
      omega
    · intro t ht
      simp only [create_ticket, List.mem_append, List.mem_singleton] at ht
      rcases ht with hold | hnew
      · have := hbound t hold
        simp only [create_ticket]
        omega
      · subst hnew
        simp [create_ticket]
    · intro t ht p hp
      simp only [create_ticket, List.mem_append, List.mem_singleton] at ht
      rcases ht with hold | hnew
      · exact hprio t hold p hp
      · subst hnew
        simp only [] at hp
        by_cases hc : containsCritical cd.title = true
        · rw [if_pos hc] at hp
          cases hp
          omega
        · rw [if_neg hc] at hp
          exact hprioCd p hp
  | @update s id u hr hv ih =>
    obtain ⟨⟨hnd, hbound⟩, hprio⟩ := ih
    have hids := update_preserves_ids s id u
    have hnext := update_preserves_nextId s id u
    refine ⟨⟨by rw [hids]; exact hnd, ?_⟩, ?_⟩
    · intro x hx
      have hxid : x.id ∈ ((update_ticket s id u).2).tickets.map Ticket.id :=
        List.mem_map_of_mem _ hx
      rw [hids] at hxid
      obtain ⟨y, hy, hyx⟩ := List.mem_map.mp hxid
      rw [hnext, ← hyx]
      exact hbound y hy
    · cases hfound : get_by_id s id with
      | none =>
        intro x hx p hp
        simp only [update_ticket, hfound] at hx
        exact hprio x hx p hp
      | some t =>
        have htmem : t ∈ s.tickets := List.mem_of_find?_eq_some hfound
        intro x hx p hp
        simp only [update_ticket, hfound] at hx
        cases hnull : setsNullColumn u with
        | true =>
          rw [hnull, if_pos rfl] at hx
          exact hprio x hx p hp
        | false =>
          rw [hnull, if_neg (by decide)] at hx
          simp only [] at hx
          obtain ⟨y, hy, hyx⟩ := List.mem_map.mp hx
          by_cases hyi : y.id = id
          · rw [if_pos (by simpa using hyi)] at hyx
            subst hyx
            have hpr : (applyUpdate t u).priority = u.priority.getD t.priority := rfl
            rw [hpr] at hp
            cases hup : u.priority with
            | none =>
              rw [hup] at hp
              exact hprio t htmem p hp
            | some v =>
              rw [hup] at hp
              simp only [Option.getD_some] at hp
              subst hp
              have hv3 : prioValOk (some p) = true := by
                simp only [ValidUpdate, Bool.and_eq_true] at hv
                have := hv.2
                rw [hup] at this
                exact this
              simp only [prioValOk, Bool.and_eq_true, decide_eq_true_eq] at hv3
              exact hv3
          · rw [if_neg (by simpa using hyi)] at hyx
            subst hyx
            exact hprio y hy p hp
  | @delete s id hr ih =>
    obtain ⟨⟨hnd, hbound⟩, hprio⟩ := ih
    cases hfound : get_by_id s id with
    | none =>
      simp only [delete_ticket, hfound]
      exact ⟨⟨hnd, hbound⟩, hprio⟩
    | some t =>
      simp only [delete_ticket, hfound]
      refine ⟨⟨?_, ?_⟩, ?_⟩
      · exact List.Nodup.sublist ((List.filter_sublist _).map Ticket.id) hnd
      · intro x hx
        exact hbound x (List.mem_of_mem_filter hx)
      · intro x hx p hp
        exact hprio x (List.mem_of_mem_filter hx) p hp

/-- C6 (amended): in every store state reachable through validated
create, update and delete operations, every ticket's priority, when
present (non-NULL), lies within `[1,5]` — a priority can be NULL only
because pydantic accepts an explicit JSON `null` for the `Optional`
priority field — and ids are pairwise distinct and never changed by an
update. -/
theorem claim6_invariants (s : StoreState) (h : Reachable s) :
    (∀ t ∈ s.tickets, ∀ p : Int, t.priority = some p → 1 ≤ p ∧ p ≤ 5) ∧
    (s.tickets.map Ticket.id).Nodup ∧
    (∀ id u, ((update_ticket s id u).2).tickets.map Ticket.id
        = s.tickets.map Ticket.id) := by
  obtain ⟨⟨hnd, _⟩, hp⟩ := reachable_wf s h
  exact ⟨hp, hnd, fun id u => update_preserves_ids s id u⟩

/-- Witness for C6: `wStore` is reachable (one create), its single
ticket's priority 3 is in range and its id list has no duplicates. -/
theorem claim6_witness :
    (1 ≤ (3 : Int) ∧ (3 : Int) ≤ 5) ∧ (wStore.tickets.map Ticket.id).Nodup := by
  have he : wStore = (create_ticket StoreState.init ⟨"routine", "d", some 3⟩).1 := by
    decide
  have hre : Reachable wStore := by
    rw [he]
    exact Reachable.create Reachable.init (by decide)
  exact ⟨(claim6_invariants wStore hre).1 wTicket (by decide) 3 rfl,
         (claim6_invariants wStore hre).2.1⟩

/-- The store after creating a ticket whose request carried an explicit
JSON `null` priority (accepted by validation, stored as NULL). -/
def nullPrioState : StoreState := (create_ticket StoreState.init ⟨"a", "b", none⟩).1

/-- Counterexample to C6 as stated: a reachable state (one validated
create whose body carried `"priority": null`) holds a ticket whose
stored priority is NULL, hence not within `[1,5]`. -/
theorem claim6_counterexample :
    Reachable nullPrioState ∧
    (⟨1, "a", "b", false, none⟩ : Ticket) ∈ nullPrioState.tickets ∧
    (⟨1, "a", "b", false, none⟩ : Ticket).priority = none := by
  refine ⟨?_, by decide, rfl⟩
  exact Reachable.create Reachable.init (by decide)
